import Mathlib

/-!
Shallow embedding of the ylibc memory-region crates (`anonymous_mmap`,
`hugepage`) and the `ysockaddr` conversion crate, for a Linux target
(64-bit, little-endian, x86_64 libc constant values).

Kernel interaction is modelled by an explicit `Kernel` state carrying the
response functions for `mmap(2)` / `munmap(2)`, the `errno` value reported
by the platform's last-error mechanism, the process memory, and a log of
the kernel calls issued so far.  Addresses and lengths are natural numbers;
flag words are 32-bit patterns represented as naturals.
-/

namespace Ylibc

/-- Linux `PROT_READ`. -/
def PROT_READ : Nat := 1

/-- Linux `PROT_WRITE`. -/
def PROT_WRITE : Nat := 2

/-- Linux `MAP_SHARED`. -/
def MAP_SHARED : Nat := 0x01

/-- Linux `MAP_PRIVATE`. -/
def MAP_PRIVATE : Nat := 0x02

/-- Linux `MAP_ANONYMOUS`. -/
def MAP_ANONYMOUS : Nat := 0x20

/-- Linux `MAP_POPULATE`. -/
def MAP_POPULATE : Nat := 0x8000

/-- Linux `MAP_HUGETLB`. -/
def MAP_HUGETLB : Nat := 0x40000

/-- Linux `MAP_HUGE_SHIFT`: offset of the encoded huge-page size in the flag word. -/
def MAP_HUGE_SHIFT : Nat := 26

/-- libc `MAP_HUGE_64KB`. -/
def MAP_HUGE_64KB : Nat := 16 <<< MAP_HUGE_SHIFT

/-- libc `MAP_HUGE_512KB`. -/
def MAP_HUGE_512KB : Nat := 19 <<< MAP_HUGE_SHIFT

/-- libc `MAP_HUGE_1MB`. -/
def MAP_HUGE_1MB : Nat := 20 <<< MAP_HUGE_SHIFT

/-- libc `MAP_HUGE_2MB`. -/
def MAP_HUGE_2MB : Nat := 21 <<< MAP_HUGE_SHIFT

/-- libc `MAP_HUGE_8MB`. -/
def MAP_HUGE_8MB : Nat := 23 <<< MAP_HUGE_SHIFT

/-- libc `MAP_HUGE_16MB`. -/
def MAP_HUGE_16MB : Nat := 24 <<< MAP_HUGE_SHIFT

/-- libc `MAP_HUGE_32MB`. -/
def MAP_HUGE_32MB : Nat := 25 <<< MAP_HUGE_SHIFT

/-- libc `MAP_HUGE_256MB`. -/
def MAP_HUGE_256MB : Nat := 28 <<< MAP_HUGE_SHIFT

/-- libc `MAP_HUGE_512MB`. -/
def MAP_HUGE_512MB : Nat := 29 <<< MAP_HUGE_SHIFT

/-- libc `MAP_HUGE_1GB`. -/
def MAP_HUGE_1GB : Nat := 30 <<< MAP_HUGE_SHIFT

/-- libc `MAP_HUGE_2GB`. -/
def MAP_HUGE_2GB : Nat := 31 <<< MAP_HUGE_SHIFT

/-- libc `MAP_HUGE_16GB` (as a 32-bit pattern; the C constant wraps negative). -/
def MAP_HUGE_16GB : Nat := 34 <<< MAP_HUGE_SHIFT

/-- Sentinel failure return of `mmap(2)`: `MAP_FAILED`, i.e. `(void* ) -1` on a
64-bit target. -/
def MAP_FAILED : Nat := 2 ^ 64 - 1

/-- Argument tuple of one `mmap(2)` call. -/
structure MmapRequest where
  addr : Nat
  len : Nat
  prot : Nat
  flags : Nat
  fd : Int
  offset : Nat
deriving DecidableEq

/-- One kernel call issued by the program, with the kernel's return value. -/
inductive KernelEvent where
  | mmap (req : MmapRequest) (ret : Nat)
  | munmap (addr : Nat) (len : Nat) (ret : Int)
deriving DecidableEq

/-- Kernel model: response functions for the two syscalls, the last-error
value (`errno`), the process memory as a byte map, and the log of calls
issued so far. -/
structure Kernel where
  mmapResult : MmapRequest → Nat
  munmapResult : Nat → Nat → Int
  errno : Int
  mem : Nat → Nat
  log : List KernelEvent

/-- Extract the unmap calls (address, length) from a kernel log. -/
def munmapCalls (log : List KernelEvent) : List (Nat × Nat) :=
  log.filterMap fun e =>
    match e with
    | KernelEvent.munmap a l _ => some (a, l)
    | KernelEvent.mmap _ _ => none

/-- Region handle of the `anonymous_mmap` crate: base address (`NonNull`)
and stored byte length. -/
structure AnonymousMmap where
  addr : Nat
  len : Nat
deriving DecidableEq

/-- Error type of the `anonymous_mmap` crate; the OS error is its errno value. -/
inductive AnonymousMmapError where
  | MmapFailed (osErr : Int)
  | MunmapFailed (m : AnonymousMmap) (osErr : Int)
deriving DecidableEq

/-- The `mmap` argument tuple built by `AnonymousMmap::new` for a given
length, transcribed from the source call site. -/
def anonymousMmapRequest (len : Nat) : MmapRequest :=
  { addr := 0
    len := len
    prot := PROT_READ ||| PROT_WRITE
    flags := MAP_ANONYMOUS ||| MAP_SHARED ||| MAP_POPULATE
    fd := -1
    offset := 0 }

/-- Embedding of `AnonymousMmap::new`: issues one `mmap` call, returns
`MmapFailed(errno)` on the sentinel failure value, otherwise the handle. -/
def AnonymousMmap.new (k : Kernel) (len : Nat) :
    Except AnonymousMmapError AnonymousMmap × Kernel :=
  let req := anonymousMmapRequest len
  let p := k.mmapResult req
  let k' := { k with log := k.log ++ [KernelEvent.mmap req p] }
  if p = MAP_FAILED then
    (Except.error (AnonymousMmapError.MmapFailed k.errno), k')
  else
    (Except.ok { addr := p, len := len }, k')

/-- Embedding of `AnonymousMmap::as_ptr`. -/
def AnonymousMmap.as_ptr (self : AnonymousMmap) : Nat :=
  self.addr

/-- Embedding of `AnonymousMmap::as_ptr_mut`. -/
def AnonymousMmap.as_ptr_mut (self : AnonymousMmap) : Nat :=
  self.addr

/-- Embedding of `AnonymousMmap::offset_unchecked_as_ptr`; the `u32` offset
is represented by its value. -/
def AnonymousMmap.offset_unchecked_as_ptr (self : AnonymousMmap) (offset : Nat) : Nat :=
  self.as_ptr + offset

/-- Embedding of `AnonymousMmap::offset_unchecked_as_ptr_mut`. -/
def AnonymousMmap.offset_unchecked_as_ptr_mut (self : AnonymousMmap) (offset : Nat) : Nat :=
  self.as_ptr_mut + offset

/-- Embedding of `AnonymousMmap::try_drop`: one `munmap` call; nonzero
return hands the handle back inside `MunmapFailed`. -/
def AnonymousMmap.try_drop (k : Kernel) (self : AnonymousMmap) :
    Except AnonymousMmapError Unit × Kernel :=
  let p := k.munmapResult self.addr self.len
  let k' := { k with log := k.log ++ [KernelEvent.munmap self.addr self.len p] }
  if p ≠ 0 then
    (Except.error (AnonymousMmapError.MunmapFailed self k.errno), k')
  else
    (Except.ok (), k')

/-- Scope-exit drop glue of `AnonymousMmap`: the source declares no `Drop`
impl and its fields carry no drop glue, so falling out of scope runs no
code and issues no kernel call. -/
def AnonymousMmap.drop (k : Kernel) (_self : AnonymousMmap) : Kernel :=
  k

/-- The twelve huge-page size classes of `HugePageChoice`. -/
inductive HugePageChoice where
  | HUGE_64KB
  | HUGE_512KB
  | HUGE_1MB
  | HUGE_2MB
  | HUGE_8MB
  | HUGE_16MB
  | HUGE_32MB
  | HUGE_256MB
  | HUGE_512MB
  | HUGE_1GB
  | HUGE_2GB
  | HUGE_16GB
deriving DecidableEq, Fintype

/-- Embedding of `HugePageChoice::as_libc_flag` (64-bit target: the two
`cfg`-gated arms are present). -/
def HugePageChoice.as_libc_flag (self : HugePageChoice) : Nat :=
  match self with
  | HugePageChoice.HUGE_64KB => MAP_HUGE_64KB
  | HugePageChoice.HUGE_512KB => MAP_HUGE_512KB
  | HugePageChoice.HUGE_1MB => MAP_HUGE_1MB
  | HugePageChoice.HUGE_2MB => MAP_HUGE_2MB
  | HugePageChoice.HUGE_8MB => MAP_HUGE_8MB
  | HugePageChoice.HUGE_16MB => MAP_HUGE_16MB
  | HugePageChoice.HUGE_32MB => MAP_HUGE_32MB
  | HugePageChoice.HUGE_256MB => MAP_HUGE_256MB
  | HugePageChoice.HUGE_512MB => MAP_HUGE_512MB
  | HugePageChoice.HUGE_1GB => MAP_HUGE_1GB
  | HugePageChoice.HUGE_2GB => MAP_HUGE_2GB
  | HugePageChoice.HUGE_16GB => MAP_HUGE_16GB

/-- Embedding of `HugePageChoice::as_libc_usize`. -/
def HugePageChoice.as_libc_usize (self : HugePageChoice) : Nat :=
  match self with
  | HugePageChoice.HUGE_64KB => 65536
  | HugePageChoice.HUGE_512KB => 524288
  | HugePageChoice.HUGE_1MB => 1048576
  | HugePageChoice.HUGE_2MB => 2097152
  | HugePageChoice.HUGE_8MB => 8388608
  | HugePageChoice.HUGE_16MB => 16777216
  | HugePageChoice.HUGE_32MB => 33554432
  | HugePageChoice.HUGE_256MB => 268435456
  | HugePageChoice.HUGE_512MB => 536870912
  | HugePageChoice.HUGE_1GB => 1073741824
  | HugePageChoice.HUGE_2GB => 2147483648
  | HugePageChoice.HUGE_16GB => 17179869184

/-- Region handle of the `hugepage` crate: raw base address and the size
class it was constructed with. -/
structure HugePageBytes where
  addr : Nat
  tlb_choice : HugePageChoice
deriving DecidableEq

/-- Error type of the `hugepage` crate; the OS error is its errno value. -/
inductive HugePageBytesError where
  | MmapFailed (osErr : Int)
  | MunmapFailed (h : HugePageBytes) (osErr : Int)
deriving DecidableEq

/-- The `mmap` argument tuple built by `HugePageBytes::new` for a given
size class, transcribed from the source call site. -/
def hugePageMmapRequest (tlb_choice : HugePageChoice) : MmapRequest :=
  { addr := 0
    len := tlb_choice.as_libc_usize
    prot := PROT_READ ||| PROT_WRITE
    flags := MAP_PRIVATE ||| MAP_ANONYMOUS ||| MAP_HUGETLB ||| MAP_POPULATE |||
      tlb_choice.as_libc_flag
    fd := -1
    offset := 0 }

/-- Embedding of `HugePageBytes::new`. -/
def HugePageBytes.new (k : Kernel) (tlb_choice : HugePageChoice) :
    Except HugePageBytesError HugePageBytes × Kernel :=
  let req := hugePageMmapRequest tlb_choice
  let p := k.mmapResult req
  let k' := { k with log := k.log ++ [KernelEvent.mmap req p] }
  if p = MAP_FAILED then
    (Except.error (HugePageBytesError.MmapFailed k.errno), k')
  else
    (Except.ok { addr := p, tlb_choice := tlb_choice }, k')

/-- Embedding of `HugePageBytes::capacity`. -/
def HugePageBytes.capacity (self : HugePageBytes) : Nat :=
  self.tlb_choice.as_libc_usize

/-- Embedding of `HugePageBytes::as_mut_ptr`. -/
def HugePageBytes.as_mut_ptr (self : HugePageBytes) : Nat :=
  self.addr

/-- Embedding of `HugePageBytes::as_slice_mut`: the raw-parts slice is its
base address and length. -/
def HugePageBytes.as_slice_mut (self : HugePageBytes) : Nat × Nat :=
  (self.as_mut_ptr, self.capacity)

/-- Embedding of `HugePageBytes::try_drop`. -/
def HugePageBytes.try_drop (k : Kernel) (self : HugePageBytes) :
    Except HugePageBytesError Unit × Kernel :=
  let p := k.munmapResult self.addr self.tlb_choice.as_libc_usize
  let k' := { k with
    log := k.log ++ [KernelEvent.munmap self.addr self.tlb_choice.as_libc_usize p] }
  if p ≠ 0 then
    (Except.error (HugePageBytesError.MunmapFailed self k.errno), k')
  else
    (Except.ok (), k')

/-- Scope-exit drop glue of `HugePageBytes`: the source declares no `Drop`
impl, so falling out of scope issues no kernel call. -/
def HugePageBytes.drop (k : Kernel) (_self : HugePageBytes) : Kernel :=
  k

/-- Kernel property stating the platform's anonymous-mapping semantics:
every successful `mmap` whose flags include `MAP_ANONYMOUS` yields a
zero-filled region. -/
def Kernel.ZeroFillAnon (k : Kernel) : Prop :=
  ∀ req : MmapRequest, req.flags &&& MAP_ANONYMOUS ≠ 0 →
    k.mmapResult req ≠ MAP_FAILED →
    ∀ i, i < req.len → k.mem (k.mmapResult req + i) = 0

/-- Test kernel on which every mapping succeeds at address 4096, unmapping
succeeds, errno is 12, and memory is all zero. -/
def okKernel : Kernel :=
  { mmapResult := fun _ => 4096
    munmapResult := fun _ _ => 0
    errno := 12
    mem := fun _ => 0
    log := [] }

/-- Test kernel on which every mapping fails and every unmapping returns
-1, with errno 22. -/
def failKernel : Kernel :=
  { mmapResult := fun _ => MAP_FAILED
    munmapResult := fun _ _ => -1
    errno := 22
    mem := fun _ => 0
    log := [] }

/-- Linux `AF_INET`. -/
def AF_INET : Nat := 2

/-- Linux `AF_INET6`. -/
def AF_INET6 : Nat := 10

/-- Byte swap of a 16-bit value: `u16::to_be` / `u16::from_be` on the
little-endian target. -/
def u16_to_be (x : Nat) : Nat :=
  x % 256 * 256 + x / 256 % 256

/-- `u32::from_ne_bytes` on the little-endian target: byte 0 is least
significant. -/
def u32_from_ne_bytes (b0 b1 b2 b3 : Nat) : Nat :=
  b0 + b1 * 2 ^ 8 + b2 * 2 ^ 16 + b3 * 2 ^ 24

/-- `u32::from_be` on the little-endian target: a 32-bit byte swap. -/
def u32_from_be (x : Nat) : Nat :=
  x % 256 * 2 ^ 24 + x / 2 ^ 8 % 256 * 2 ^ 16 + x / 2 ^ 16 % 256 * 2 ^ 8 + x / 2 ^ 24 % 256

/-- Big-endian byte decomposition of a value into `k` bytes, most
significant first. -/
def natToBeBytes (k : Nat) (x : Nat) : List Nat :=
  match k with
  | 0 => []
  | k + 1 => natToBeBytes k (x / 256) ++ [x % 256]

/-- `u128::from_be_bytes`: fold the bytes most-significant first. -/
def u128_from_be_bytes (bytes : List Nat) : Nat :=
  bytes.foldl (fun acc b => acc * 256 + b) 0

/-- Rust `Ipv4Addr`, by its four octets. -/
structure Ipv4Addr where
  o0 : Nat
  o1 : Nat
  o2 : Nat
  o3 : Nat
deriving DecidableEq

/-- `Ipv4Addr::octets` as the ne-bytes tuple order `(o0, o1, o2, o3)`. -/
def Ipv4Addr.from_bits (x : Nat) : Ipv4Addr :=
  { o0 := x / 2 ^ 24 % 256, o1 := x / 2 ^ 16 % 256, o2 := x / 2 ^ 8 % 256, o3 := x % 256 }

/-- Rust `Ipv6Addr`, by its sixteen octets. -/
structure Ipv6Addr where
  octets : List Nat
deriving DecidableEq

/-- `Ipv6Addr::from_bits`: the sixteen big-endian bytes of the 128-bit value. -/
def Ipv6Addr.from_bits (x : Nat) : Ipv6Addr :=
  { octets := natToBeBytes 16 x }

/-- Rust `SocketAddrV4`. -/
structure SocketAddrV4 where
  ip : Ipv4Addr
  port : Nat
deriving DecidableEq

/-- Rust `SocketAddrV6`. -/
structure SocketAddrV6 where
  ip : Ipv6Addr
  port : Nat
  flowinfo : Nat
  scope_id : Nat
deriving DecidableEq

/-- Rust `SocketAddr`. -/
inductive SocketAddr where
  | V4 (sa : SocketAddrV4)
  | V6 (sa : SocketAddrV6)
deriving DecidableEq

/-- libc `sockaddr_in` (the `in_addr` field inlined as `s_addr`). -/
structure sockaddr_in where
  sin_family : Nat
  sin_port : Nat
  s_addr : Nat
  sin_zero : List Nat
deriving DecidableEq

/-- libc `sockaddr_in6` (the `in6_addr` field inlined as `s6_addr`). -/
structure sockaddr_in6 where
  sin6_family : Nat
  sin6_port : Nat
  sin6_flowinfo : Nat
  s6_addr : List Nat
  sin6_scope_id : Nat
deriving DecidableEq

/-- The `YSockAddrC` enum: a C sockaddr value with its socklen. -/
inductive YSockAddrC where
  | V4 (sa : sockaddr_in) (len : Nat)
  | V6 (sa : sockaddr_in6) (len : Nat)
deriving DecidableEq

/-- Embedding of `impl From<SocketAddr> for YSockAddrC` (little-endian
target: `to_be` swaps bytes; `size_of` of the two structs is 16 and 28). -/
def YSockAddrC.ofSocketAddr (sa : SocketAddr) : YSockAddrC :=
  match sa with
  | SocketAddr.V4 sa_v4 =>
      YSockAddrC.V4
        { sin_family := AF_INET
          sin_port := u16_to_be sa_v4.port
          s_addr := u32_from_ne_bytes sa_v4.ip.o0 sa_v4.ip.o1 sa_v4.ip.o2 sa_v4.ip.o3
          sin_zero := [0, 0, 0, 0, 0, 0, 0, 0] }
        16
  | SocketAddr.V6 sa_v6 =>
      YSockAddrC.V6
        { sin6_family := AF_INET6
          sin6_port := u16_to_be sa_v6.port
          sin6_flowinfo := sa_v6.flowinfo
          s6_addr := sa_v6.ip.octets
          sin6_scope_id := sa_v6.scope_id }
        28

/-- The `YSockAddrR` newtype over `SocketAddr`. -/
structure YSockAddrR where
  val : SocketAddr
deriving DecidableEq

/-- Embedding of `YSockAddrR::as_sockaddr`. -/
def YSockAddrR.as_sockaddr (self : YSockAddrR) : SocketAddr :=
  self.val

/-- Embedding of `impl From<YSockAddrC> for YSockAddrR`: note the source
applies `u32::from_be` to `s_addr` but feeds `sin_port` to the
`SocketAddr` constructors without a byte-order conversion. -/
def YSockAddrR.ofYSockAddrC (sa : YSockAddrC) : YSockAddrR :=
  match sa with
  | YSockAddrC.V4 c_sa4 _ =>
      { val := SocketAddr.V4
          { ip := Ipv4Addr.from_bits (u32_from_be c_sa4.s_addr)
            port := c_sa4.sin_port } }
  | YSockAddrC.V6 c_sa6 _ =>
      { val := SocketAddr.V6
          { ip := Ipv6Addr.from_bits (u128_from_be_bytes c_sa6.s6_addr)
            port := c_sa6.sin6_port
            flowinfo := c_sa6.sin6_flowinfo
            scope_id := c_sa6.sin6_scope_id } }

/-- The round trip of claim C9: Rust address to C representation and back. -/
def sockAddrRoundtrip (sa : SocketAddr) : SocketAddr :=
  (YSockAddrR.ofYSockAddrC (YSockAddrC.ofSocketAddr sa)).as_sockaddr

/-- Base-2 logarithm of an exact power of two. -/
theorem log2_two_pow (n : Nat) : Nat.log2 (2 ^ n) = n := by
  rw [Nat.log2_eq_log_two]
  exact Nat.log_pow Nat.one_lt_two n

/-- Value of `Nat.log2` at the 64KB class magnitude. -/
theorem log2_val_16 : Nat.log2 (65536 : Nat) = 16 := by
  rw [show (65536 : Nat) = 2 ^ 16 from by norm_num, log2_two_pow]

/-- Value of `Nat.log2` at the 512KB class magnitude. -/
theorem log2_val_19 : Nat.log2 (524288 : Nat) = 19 := by
  rw [show (524288 : Nat) = 2 ^ 19 from by norm_num, log2_two_pow]

/-- Value of `Nat.log2` at the 1MB class magnitude. -/
theorem log2_val_20 : Nat.log2 (1048576 : Nat) = 20 := by
  rw [show (1048576 : Nat) = 2 ^ 20 from by norm_num, log2_two_pow]

/-- Value of `Nat.log2` at the 2MB class magnitude. -/
theorem log2_val_21 : Nat.log2 (2097152 : Nat) = 21 := by
  rw [show (2097152 : Nat) = 2 ^ 21 from by norm_num, log2_two_pow]

/-- Value of `Nat.log2` at the 8MB class magnitude. -/
theorem log2_val_23 : Nat.log2 (8388608 : Nat) = 23 := by
  rw [show (8388608 : Nat) = 2 ^ 23 from by norm_num, log2_two_pow]

/-- Value of `Nat.log2` at the 16MB class magnitude. -/
theorem log2_val_24 : Nat.log2 (16777216 : Nat) = 24 := by
  rw [show (16777216 : Nat) = 2 ^ 24 from by norm_num, log2_two_pow]

/-- Value of `Nat.log2` at the 32MB class magnitude. -/
theorem log2_val_25 : Nat.log2 (33554432 : Nat) = 25 := by
  rw [show (33554432 : Nat) = 2 ^ 25 from by norm_num, log2_two_pow]

/-- Value of `Nat.log2` at the 256MB class magnitude. -/
theorem log2_val_28 : Nat.log2 (268435456 : Nat) = 28 := by
  rw [show (268435456 : Nat) = 2 ^ 28 from by norm_num, log2_two_pow]

/-- Value of `Nat.log2` at the 512MB class magnitude. -/
theorem log2_val_29 : Nat.log2 (536870912 : Nat) = 29 := by
  rw [show (536870912 : Nat) = 2 ^ 29 from by norm_num, log2_two_pow]

/-- Value of `Nat.log2` at the 1GB class magnitude. -/
theorem log2_val_30 : Nat.log2 (1073741824 : Nat) = 30 := by
  rw [show (1073741824 : Nat) = 2 ^ 30 from by norm_num, log2_two_pow]

/-- Value of `Nat.log2` at the 2GB class magnitude. -/
theorem log2_val_31 : Nat.log2 (2147483648 : Nat) = 31 := by
  rw [show (2147483648 : Nat) = 2 ^ 31 from by norm_num, log2_two_pow]

/-- Value of `Nat.log2` at the 16GB class magnitude. -/
theorem log2_val_34 : Nat.log2 (17179869184 : Nat) = 34 := by
  rw [show (17179869184 : Nat) = 2 ^ 34 from by norm_num, log2_two_pow]

/-- C1: for a live `AnonymousMmap` or `HugePageBytes` handle, when the
kernel unmap call returns nonzero, `try_drop` returns a `MunmapFailed`
error carrying back the handle itself — base address and length (resp.
size class) exactly as before the attempt — and when the unmap call
returns zero, `try_drop` returns success. -/
theorem C1_try_drop_failure_returns_handle_intact (k : Kernel)
    (m : AnonymousMmap) (h : HugePageBytes) :
    (k.munmapResult m.addr m.len ≠ 0 →
      (AnonymousMmap.try_drop k m).1 =
        Except.error (AnonymousMmapError.MunmapFailed m k.errno)) ∧
    (k.munmapResult m.addr m.len = 0 →
      (AnonymousMmap.try_drop k m).1 = Except.ok ()) ∧
    (k.munmapResult h.addr h.tlb_choice.as_libc_usize ≠ 0 →
      (HugePageBytes.try_drop k h).1 =
        Except.error (HugePageBytesError.MunmapFailed h k.errno)) ∧
    (k.munmapResult h.addr h.tlb_choice.as_libc_usize = 0 →
      (HugePageBytes.try_drop k h).1 = Except.ok ()) := by
  refine ⟨fun hp => ?_, fun hp => ?_, fun hp => ?_, fun hp => ?_⟩ <;>
    simp [AnonymousMmap.try_drop, HugePageBytes.try_drop, hp]

/-- Witness for C1 at concrete kernels and handles. -/
theorem C1_witness :
    (AnonymousMmap.try_drop failKernel ⟨4096, 64⟩).1 =
      Except.error (AnonymousMmapError.MunmapFailed ⟨4096, 64⟩ 22) ∧
    (AnonymousMmap.try_drop okKernel ⟨4096, 64⟩).1 = Except.ok () ∧
    (HugePageBytes.try_drop failKernel ⟨4096, HugePageChoice.HUGE_2MB⟩).1 =
      Except.error (HugePageBytesError.MunmapFailed ⟨4096, HugePageChoice.HUGE_2MB⟩ 22) ∧
    (HugePageBytes.try_drop okKernel ⟨4096, HugePageChoice.HUGE_2MB⟩).1 = Except.ok () :=
  ⟨(C1_try_drop_failure_returns_handle_intact failKernel ⟨4096, 64⟩
      ⟨4096, HugePageChoice.HUGE_2MB⟩).1 (by decide),
   (C1_try_drop_failure_returns_handle_intact okKernel ⟨4096, 64⟩
      ⟨4096, HugePageChoice.HUGE_2MB⟩).2.1 (by decide),
   (C1_try_drop_failure_returns_handle_intact failKernel ⟨4096, 64⟩
      ⟨4096, HugePageChoice.HUGE_2MB⟩).2.2.1 (by decide),
   (C1_try_drop_failure_returns_handle_intact okKernel ⟨4096, 64⟩
      ⟨4096, HugePageChoice.HUGE_2MB⟩).2.2.2 (by decide)⟩

/-- C2: for every size class the flag is the kernel encoding of exactly
that class's magnitude — the base-2 logarithm of the magnitude placed at
the `MAP_HUGE_SHIFT` offset — and both the magnitude table and the flag
table are injective (no class resolves to another class's value). -/
theorem C2_flag_magnitude_matched_pair :
    (∀ c : HugePageChoice,
      c.as_libc_flag = Nat.log2 c.as_libc_usize <<< MAP_HUGE_SHIFT) ∧
    (∀ c1 c2 : HugePageChoice, c1.as_libc_usize = c2.as_libc_usize → c1 = c2) ∧
    (∀ c1 c2 : HugePageChoice, c1.as_libc_flag = c2.as_libc_flag → c1 = c2) := by
  refine ⟨?_, ?_, ?_⟩
  · intro c
    cases c
    · rw [show HugePageChoice.HUGE_64KB.as_libc_usize = 65536 from rfl, log2_val_16]
      rfl
    · rw [show HugePageChoice.HUGE_512KB.as_libc_usize = 524288 from rfl, log2_val_19]
      rfl
    · rw [show HugePageChoice.HUGE_1MB.as_libc_usize = 1048576 from rfl, log2_val_20]
      rfl
    · rw [show HugePageChoice.HUGE_2MB.as_libc_usize = 2097152 from rfl, log2_val_21]
      rfl
    · rw [show HugePageChoice.HUGE_8MB.as_libc_usize = 8388608 from rfl, log2_val_23]
      rfl
    · rw [show HugePageChoice.HUGE_16MB.as_libc_usize = 16777216 from rfl, log2_val_24]
      rfl
    · rw [show HugePageChoice.HUGE_32MB.as_libc_usize = 33554432 from rfl, log2_val_25]
      rfl
    · rw [show HugePageChoice.HUGE_256MB.as_libc_usize = 268435456 from rfl, log2_val_28]
      rfl
    · rw [show HugePageChoice.HUGE_512MB.as_libc_usize = 536870912 from rfl, log2_val_29]
      rfl
    · rw [show HugePageChoice.HUGE_1GB.as_libc_usize = 1073741824 from rfl, log2_val_30]
      rfl
    · rw [show HugePageChoice.HUGE_2GB.as_libc_usize = 2147483648 from rfl, log2_val_31]
      rfl
    · rw [show HugePageChoice.HUGE_16GB.as_libc_usize = 17179869184 from rfl, log2_val_34]
      rfl
  · decide
  · decide

/-- Witness for C2: the 2MB class's pair, and injectivity applied at 1GB. -/
theorem C2_witness :
    HugePageChoice.HUGE_2MB.as_libc_flag =
      Nat.log2 HugePageChoice.HUGE_2MB.as_libc_usize <<< MAP_HUGE_SHIFT ∧
    HugePageChoice.HUGE_1GB = HugePageChoice.HUGE_1GB :=
  ⟨C2_flag_magnitude_matched_pair.1 HugePageChoice.HUGE_2MB,
   C2_flag_magnitude_matched_pair.2.1 HugePageChoice.HUGE_1GB HugePageChoice.HUGE_1GB rfl⟩

/-- C3: a `HugePageBytes` constructed with class `c` reports capacity equal
to `c`'s fixed magnitude; the capacity depends only on the stored size
class; and the twelve magnitudes are the listed byte values. -/
theorem C3_capacity_is_class_magnitude (k : Kernel) (c : HugePageChoice)
    (h : HugePageBytes) (hok : (HugePageBytes.new k c).1 = Except.ok h) :
    h.capacity = c.as_libc_usize ∧
    (∀ h1 h2 : HugePageBytes, h1.tlb_choice = h2.tlb_choice →
      h1.capacity = h2.capacity) ∧
    (HugePageChoice.HUGE_64KB.as_libc_usize = 65536 ∧
     HugePageChoice.HUGE_512KB.as_libc_usize = 524288 ∧
     HugePageChoice.HUGE_1MB.as_libc_usize = 1048576 ∧
     HugePageChoice.HUGE_2MB.as_libc_usize = 2097152 ∧
     HugePageChoice.HUGE_8MB.as_libc_usize = 8388608 ∧
     HugePageChoice.HUGE_16MB.as_libc_usize = 16777216 ∧
     HugePageChoice.HUGE_32MB.as_libc_usize = 33554432 ∧
     HugePageChoice.HUGE_256MB.as_libc_usize = 268435456 ∧
     HugePageChoice.HUGE_512MB.as_libc_usize = 536870912 ∧
     HugePageChoice.HUGE_1GB.as_libc_usize = 1073741824 ∧
     HugePageChoice.HUGE_2GB.as_libc_usize = 2147483648 ∧
     HugePageChoice.HUGE_16GB.as_libc_usize = 17179869184) := by
  have hc : h.tlb_choice = c := by
    by_cases hp : k.mmapResult (hugePageMmapRequest c) = MAP_FAILED
    · simp [HugePageBytes.new, hp] at hok
    · simp [HugePageBytes.new, hp] at hok
      rw [← hok]
  refine ⟨?_, ?_, by decide⟩
  · rw [HugePageBytes.capacity, hc]
  · intro h1 h2 hh
    rw [HugePageBytes.capacity, HugePageBytes.capacity, hh]

/-- Witness for C3 at a concrete successful construction. -/
theorem C3_witness :
    (⟨4096, HugePageChoice.HUGE_2MB⟩ : HugePageBytes).capacity =
      HugePageChoice.HUGE_2MB.as_libc_usize :=
  (C3_capacity_is_class_magnitude okKernel HugePageChoice.HUGE_2MB
    ⟨4096, HugePageChoice.HUGE_2MB⟩ rfl).1

/-- C4: `AnonymousMmap::new` appends exactly one mapping request to the
kernel log, with the caller's length unmodified, protection
read+write (3), flags anonymous + shared + populate (0x20 | 0x01 | 0x8000 =
32801), fd -1 and offset 0. -/
theorem C4_anonymous_new_single_exact_request (k : Kernel) (len : Nat) :
    ∃ ret : Nat, (AnonymousMmap.new k len).2.log = k.log ++
      [KernelEvent.mmap
        { addr := 0, len := len, prot := 3, flags := 32801, fd := -1, offset := 0 }
        ret] := by
  refine ⟨k.mmapResult (anonymousMmapRequest len), ?_⟩
  have hreq : anonymousMmapRequest len =
      { addr := 0, len := len, prot := 3, flags := 32801, fd := -1, offset := 0 } := by
    simp [anonymousMmapRequest, PROT_READ, PROT_WRITE, MAP_ANONYMOUS, MAP_SHARED,
      MAP_POPULATE]
  simp only [AnonymousMmap.new]
  split <;> rw [hreq]

/-- C5: `HugePageBytes::new` appends exactly one mapping request to the
kernel log, with length equal to the class's magnitude, protection
read+write (3), flags private + anonymous + hugetlb + populate
(0x02 | 0x20 | 0x40000 | 0x8000 = 294946) combined with the class's encoded
huge-page flag, fd -1 and offset 0. -/
theorem C5_hugepage_new_single_exact_request (k : Kernel) (c : HugePageChoice) :
    ∃ ret : Nat, (HugePageBytes.new k c).2.log = k.log ++
      [KernelEvent.mmap
        { addr := 0, len := c.as_libc_usize, prot := 3,
          flags := 294946 ||| c.as_libc_flag, fd := -1, offset := 0 }
        ret] := by
  refine ⟨k.mmapResult (hugePageMmapRequest c), ?_⟩
  have hreq : hugePageMmapRequest c =
      { addr := 0, len := c.as_libc_usize, prot := 3,
        flags := 294946 ||| c.as_libc_flag, fd := -1, offset := 0 } := by
    simp [hugePageMmapRequest, PROT_READ, PROT_WRITE, MAP_PRIVATE, MAP_ANONYMOUS,
      MAP_HUGETLB, MAP_POPULATE]
  simp only [HugePageBytes.new]
  split <;> rw [hreq]

/-- C6: for both components, when the kernel mapping call returns the
sentinel failure value, construction returns `MmapFailed` carrying the
kernel's errno value verbatim and no handle; when the mapping call
succeeds, construction returns a handle and no error. -/
theorem C6_construction_failure_no_handle (k : Kernel) (len : Nat)
    (c : HugePageChoice) :
    (k.mmapResult (anonymousMmapRequest len) = MAP_FAILED →
      (AnonymousMmap.new k len).1 =
        Except.error (AnonymousMmapError.MmapFailed k.errno)) ∧
    (k.mmapResult (anonymousMmapRequest len) ≠ MAP_FAILED →
      (AnonymousMmap.new k len).1 =
        Except.ok { addr := k.mmapResult (anonymousMmapRequest len), len := len }) ∧
    (k.mmapResult (hugePageMmapRequest c) = MAP_FAILED →
      (HugePageBytes.new k c).1 =
        Except.error (HugePageBytesError.MmapFailed k.errno)) ∧
    (k.mmapResult (hugePageMmapRequest c) ≠ MAP_FAILED →
      (HugePageBytes.new k c).1 =
        Except.ok { addr := k.mmapResult (hugePageMmapRequest c), tlb_choice := c }) := by
  refine ⟨fun hp => ?_, fun hp => ?_, fun hp => ?_, fun hp => ?_⟩ <;>
    simp [AnonymousMmap.new, HugePageBytes.new, hp]

/-- Witness for C6 at the failing and the succeeding test kernels. -/
theorem C6_witness :
    (AnonymousMmap.new failKernel 64).1 =
      Except.error (AnonymousMmapError.MmapFailed 22) ∧
    (AnonymousMmap.new okKernel 64).1 = Except.ok ⟨4096, 64⟩ ∧
    (HugePageBytes.new failKernel HugePageChoice.HUGE_1GB).1 =
      Except.error (HugePageBytesError.MmapFailed 22) ∧
    (HugePageBytes.new okKernel HugePageChoice.HUGE_1GB).1 =
      Except.ok ⟨4096, HugePageChoice.HUGE_1GB⟩ :=
  ⟨(C6_construction_failure_no_handle failKernel 64 HugePageChoice.HUGE_1GB).1
      (by decide),
   (C6_construction_failure_no_handle okKernel 64 HugePageChoice.HUGE_1GB).2.1
      (by decide),
   (C6_construction_failure_no_handle failKernel 64 HugePageChoice.HUGE_1GB).2.2.1
      (by decide),
   (C6_construction_failure_no_handle okKernel 64 HugePageChoice.HUGE_1GB).2.2.2
      (by decide)⟩

/-- C7: the unchecked offset operations return exactly the base address
advanced by the caller-supplied byte offset, for every offset in the `u32`
range — in particular with no bounds check of the offset against the
stored length. -/
theorem C7_offset_unchecked_is_base_plus_offset (m : AnonymousMmap)
    (offset : Nat) (hoff : offset < 2 ^ 32) :
    m.offset_unchecked_as_ptr offset = m.as_ptr + offset ∧
    m.offset_unchecked_as_ptr_mut offset = m.as_ptr_mut + offset :=
  ⟨rfl, rfl⟩

/-- Witness for C7 with an offset far beyond the stored length, showing no
bounds check takes place. -/
theorem C7_witness :
    (⟨4096, 64⟩ : AnonymousMmap).offset_unchecked_as_ptr 100000 =
      (⟨4096, 64⟩ : AnonymousMmap).as_ptr + 100000 ∧
    (⟨4096, 64⟩ : AnonymousMmap).offset_unchecked_as_ptr_mut 100000 =
      (⟨4096, 64⟩ : AnonymousMmap).as_ptr_mut + 100000 :=
  C7_offset_unchecked_is_base_plus_offset ⟨4096, 64⟩ 100000 (by norm_num)

/-- C8: on a kernel satisfying the platform's anonymous-mapping zero-fill
semantics, a successful `AnonymousMmap::new` of positive length `L` yields
a handle through whose base address every byte at offset below `L` reads
zero before any write. -/
theorem C8_anonymous_region_zero_filled (k : Kernel) (L : Nat)
    (m : AnonymousMmap) (hzf : k.ZeroFillAnon) (hpos : 0 < L)
    (hok : (AnonymousMmap.new k L).1 = Except.ok m) :
    ∀ i, i < L → k.mem (m.as_ptr + i) = 0 := by
  by_cases hp : k.mmapResult (anonymousMmapRequest L) = MAP_FAILED
  · simp [AnonymousMmap.new, hp] at hok
  · simp [AnonymousMmap.new, hp] at hok
    intro i hi
    have hflag : (anonymousMmapRequest L).flags &&& MAP_ANONYMOUS ≠ 0 := by
      show (MAP_ANONYMOUS ||| MAP_SHARED ||| MAP_POPULATE) &&& MAP_ANONYMOUS ≠ 0
      decide
    have hlen : i < (anonymousMmapRequest L).len := hi
    have hz := hzf (anonymousMmapRequest L) hflag hp i hlen
    rw [← hok]
    exact hz

/-- Witness for C8 at a concrete zero-memory kernel, length 5, offset 3. -/
theorem C8_witness :
    okKernel.mem ((⟨4096, 5⟩ : AnonymousMmap).as_ptr + 3) = 0 :=
  C8_anonymous_region_zero_filled okKernel 5 ⟨4096, 5⟩
    (fun _ _ _ _ _ => rfl) (by decide) rfl 3 (by decide)

/-- C9: evaluation of the sockaddr round trip at a concrete IPv4 address on
the little-endian target: the IP address survives but the port comes back
byte-swapped (1 becomes 256), because the C-to-Rust direction feeds the
network-byte-order `sin_port` to the `SocketAddr` constructor without a
`from_be` conversion. -/
theorem C9_roundtrip_swaps_port_bytes :
    sockAddrRoundtrip
        (SocketAddr.V4 { ip := { o0 := 1, o1 := 2, o2 := 3, o3 := 4 }, port := 1 }) =
      SocketAddr.V4 { ip := { o0 := 1, o1 := 2, o2 := 3, o3 := 4 }, port := 256 } ∧
    SocketAddr.V4 { ip := { o0 := 1, o1 := 2, o2 := 3, o3 := 4 }, port := 256 } ≠
      SocketAddr.V4 { ip := { o0 := 1, o1 := 2, o2 := 3, o3 := 4 }, port := 1 } := by
  decide

/-- C10: neither component performs automatic teardown — the drop glue
leaves the kernel unchanged and construction appends no unmap call — and
`try_drop` is the only operation that appends a kernel unmap call (exactly
one, for the handle's address and length). -/
theorem C10_only_try_drop_unmaps (k : Kernel) (m : AnonymousMmap)
    (h : HugePageBytes) (len : Nat) (c : HugePageChoice) :
    AnonymousMmap.drop k m = k ∧
    HugePageBytes.drop k h = k ∧
    munmapCalls (AnonymousMmap.new k len).2.log = munmapCalls k.log ∧
    munmapCalls (HugePageBytes.new k c).2.log = munmapCalls k.log ∧
    munmapCalls (AnonymousMmap.try_drop k m).2.log =
      munmapCalls k.log ++ [(m.addr, m.len)] ∧
    munmapCalls (HugePageBytes.try_drop k h).2.log =
      munmapCalls k.log ++ [(h.addr, h.tlb_choice.as_libc_usize)] := by
  refine ⟨rfl, rfl, ?_, ?_, ?_, ?_⟩ <;>
    · simp only [AnonymousMmap.new, HugePageBytes.new, AnonymousMmap.try_drop,
        HugePageBytes.try_drop]
      split <;> simp [munmapCalls, List.filterMap_append]

end Ylibc
